import Mathlib

/-!
A shallow embedding of the JMAP client of `fastmail-mcp`
(`src/jmap-client.ts`, plus the extended client methods `bulkMarkRead`,
`bulkMove`, `bulkDelete`, `advancedSearch`, `getRecentEmails`).

Modelling conventions:
* JavaScript runtime values are `JVal` (JSON values plus `undefined` for
  `undefined`).  Property access on `undefined`/`null` raises a `TypeError`;
  all `throw new Error(msg)` sites become `JsError.thrown msg`.
* `async` methods become computations in `Net`, a reader-over-oracle monad
  that records the ordered list of JMAP requests the method posts; the
  oracle maps each request to the HTTP reply the remote service returns.
  The memoised session bootstrap is modelled separately (`getSession`),
  matching the code where every domain operation starts from the cached
  `JmapSession`.
* `JSON.stringify` is modelled by `stringify` for the values that actually
  reach it here (ids and reason objects without escape characters);
  fields whose value is `undefined` are omitted, as `JSON.stringify` does.
-/

namespace FastmailMcp

/-- A JavaScript runtime value: JSON plus `undefined`. -/
inductive JVal where
  | null
  | undefined
  | bool (b : Bool)
  | num (n : Int)
  | str (s : String)
  | arr (elems : List JVal)
  | obj (fields : List (String × JVal))
deriving Inhabited

/-- What a client method can throw: `thrown msg` is `throw new Error(msg)`;
`typeError` is the runtime TypeError raised by a property access on
`undefined` (or by calling a method that the receiver does not have). -/
inductive JsError where
  | thrown (msg : String)
  | typeError
deriving DecidableEq, Inhabited

/-- Does the pattern occur at the head of the character list? -/
def charsMatch : List Char → List Char → Bool
  | _, [] => true
  | [], _ :: _ => false
  | c :: cs, p :: ps => c == p && charsMatch cs ps

/-- Does the pattern occur anywhere in the character list? -/
def charsContain : List Char → List Char → Bool
  | [], pat => charsMatch [] pat
  | c :: cs, pat => charsMatch (c :: cs) pat || charsContain cs pat

/-- `s.includes(pat)` on JavaScript strings. -/
def strIncludes (s pat : String) : Bool := charsContain s.data pat.data

/-- `s.toLowerCase()` (the names involved are ASCII), written over the
character list so that it evaluates by kernel reduction. -/
def lowerStr (s : String) : String := ⟨s.data.map Char.toLower⟩

/-- Join rendered pieces with commas (used by `stringify`). -/
def joinComma : List String → String
  | [] => ""
  | [s] => s
  | s :: ss => s ++ "," ++ joinComma ss

mutual
/-- `JSON.stringify` as it appears inside the template literals of the
error messages.  Strings are rendered without escape handling (the ids and
reason codes that reach it contain no characters needing escapes); a
top-level `undefined` renders as the text a template literal would show. -/
def stringify : JVal → String
  | .null => "null"
  | .undefined => "undefined"
  | .bool b => if b then "true" else "false"
  | .num n => toString n
  | .str s => "\"" ++ s ++ "\""
  | .arr es => "[" ++ joinComma (stringifyElems es) ++ "]"
  | .obj fs => "\x7b" ++ joinComma (stringifyFields fs) ++ "\x7d"

/-- Array elements: `undefined` becomes `null` under `JSON.stringify`. -/
def stringifyElems : List JVal → List String
  | [] => []
  | .undefined :: es => "null" :: stringifyElems es
  | e :: es => stringify e :: stringifyElems es

/-- Object members: fields whose value is `undefined` are omitted. -/
def stringifyFields : List (String × JVal) → List String
  | [] => []
  | (_, .undefined) :: fs => stringifyFields fs
  | (k, v) :: fs => ("\"" ++ k ++ "\":" ++ stringify v) :: stringifyFields fs
end

/-- JavaScript truthiness. -/
def truthy : JVal → Bool
  | .null => false
  | .undefined => false
  | .bool b => b
  | .num n => n != 0
  | .str s => s != ""
  | .arr _ => true
  | .obj _ => true

/-- `v[k]` / `v.k`: on an object, the field's value or `undefined` when the
key is absent; on `undefined` or `null`, a TypeError; on other primitives,
`undefined` (none of the modelled paths reads a boxed-primitive property). -/
def jsGet : JVal → String → Except JsError JVal
  | .obj fs, k => .ok ((fs.lookup k).getD .undefined)
  | .undefined, _ => .error .typeError
  | .null, _ => .error .typeError
  | _, _ => .ok .undefined

/-- `v?.k`: like `jsGet` but optional chaining short-circuits
`undefined`/`null` to `undefined` instead of throwing. -/
def jsGetOpt (v : JVal) (k : String) : JVal :=
  match v with
  | .obj fs => (fs.lookup k).getD .undefined
  | _ => .undefined

/-- `v === false` (strict equality against the boolean literal). -/
def jsEqFalse : JVal → Bool
  | .bool b => b == false
  | _ => false

/-- `v === s` for a string literal `s` (strict equality). -/
def jsEqStr : JVal → String → Bool
  | .str t, s => t == s
  | _, _ => false

/-- The elements of an array value; calling an array method such as
`.find` on a non-array receiver raises a TypeError. -/
def jsArrElems : JVal → Except JsError (List JVal)
  | .arr es => .ok es
  | _ => .error .typeError

/-- `Array.prototype.find` with a predicate that may itself throw;
returns `undefined` when no element matches. -/
def jsFindE (p : JVal → Except JsError Bool) : List JVal → Except JsError JVal
  | [] => .ok .undefined
  | v :: vs => do
    let b ← p v
    if b then .ok v else jsFindE p vs

/-- `String(v)` as used for a computed object key (`ids[mb.id] = true`).
The keys that occur on the modelled paths are strings; the compound cases
(which JavaScript renders as joined elements / `[object Object]`) are not
reached and map to a fixed text. -/
def jsToPropKey : JVal → String
  | .str s => s
  | .null => "null"
  | .undefined => "undefined"
  | .bool b => if b then "true" else "false"
  | .num n => toString n
  | .arr _ => "object Array"
  | .obj _ => "object Object"

/-- JavaScript truthiness of an optional string argument: an absent
argument and the empty string are both falsy. -/
def strOpt : Option String → Option String
  | some s => if s == "" then none else some s
  | none => none

/-- `v || d` on an optional integer argument (`filters.limit || 50`):
`0` is falsy in JavaScript, so it falls through to the default. -/
def jsOrInt (v : Option Int) (d : Int) : Int :=
  match v with
  | some n => if n = 0 then d else n
  | none => d

/-! ### Wire types (`JmapRequest`, `JmapResponse`, the session) -/

/-- `JmapRequest` from `jmap-client.ts` (`usingCaps` is the TS field
`using`, a Lean keyword); a method call is (name, arguments, label). -/
structure JmapRequest where
  usingCaps : List String
  methodCalls : List (String × JVal × String)
deriving Inhabited

structure JmapResponse where
  methodResponses : List (String × JVal × String)
  sessionState : String
deriving Inhabited

/-- `response.methodResponses[i][1]`: when step `i` is absent (a truncated
response) the index on `undefined` raises a TypeError. -/
def stepArgs (r : JmapResponse) (i : Nat) : Except JsError JVal :=
  match r.methodResponses.get? i with
  | some s => .ok s.2.1
  | none => .error .typeError

structure JmapSession where
  apiUrl : String
  accountId : String
  capabilities : JVal
deriving Inhabited

/-! ### The network model

A domain operation is a function of the remote service (the oracle) that
yields the ordered list of JMAP requests it posted together with its
outcome.  Sequencing concatenates the traces; a thrown error stops the
operation, so nothing after it posts a request. -/

structure HttpReply where
  ok : Bool
  statusText : String
  body : JmapResponse
deriving Inhabited

def Oracle := JmapRequest → HttpReply

def Net (α : Type) := Oracle → List JmapRequest × Except JsError α

def Net.pure (a : α) : Net α := fun _ => ([], .ok a)

def Net.bind (m : Net α) (f : α → Net β) : Net β := fun o =>
  ((m o).1 ++ (match (m o).2 with | .ok a => (f a o).1 | .error _ => []),
   match (m o).2 with | .ok a => (f a o).2 | .error e => .error e)

instance : Monad Net where
  pure := Net.pure
  bind := Net.bind

def Net.throw (e : JsError) : Net α := fun _ => ([], .error e)

def Net.ofExcept : Except JsError α → Net α
  | .ok a => Net.pure a
  | .error e => Net.throw e

/-- `makeRequest`: posts the request and throws on a non-ok HTTP status.
It performs no check that the response step count matches the request's
method-call count. -/
def makeRequest (req : JmapRequest) : Net JmapResponse := fun o =>
  if (o req).ok then ([req], .ok (o req).body)
  else ([req], .error (.thrown ("JMAP request failed: " ++ (o req).statusText)))

@[simp] theorem Net.bind_eq (m : Net α) (f : α → Net β) :
    (m >>= f) = Net.bind m f := rfl

@[simp] theorem Net.pure_eq (a : α) : (Pure.pure a : Net α) = Net.pure a := rfl

@[simp] theorem Net.pure_apply (a : α) (o : Oracle) :
    Net.pure a o = ([], Except.ok a) := rfl

@[simp] theorem Net.throw_apply (e : JsError) (o : Oracle) :
    (Net.throw e : Net α) o = ([], Except.error e) := rfl

theorem Net.bind_apply (m : Net α) (f : α → Net β) (o : Oracle) :
    Net.bind m f o =
      ((m o).1 ++ (match (m o).2 with | .ok a => (f a o).1 | .error _ => []),
       match (m o).2 with | .ok a => (f a o).2 | .error e => .error e) := rfl

/-! ### Domain request shapes (pure batch building) -/

def capCore : String := "urn:ietf:params:jmap:core"
def capMail : String := "urn:ietf:params:jmap:mail"
def capSubmission : String := "urn:ietf:params:jmap:submission"

/-- The `Mailbox/get` batch of `getMailboxes`. -/
def getMailboxesRequest (s : JmapSession) : JmapRequest :=
  { usingCaps := [capCore, capMail],
    methodCalls := [("Mailbox/get", .obj [("accountId", .str s.accountId)], "mailboxes")] }

/-- The query-then-fetch batch of `getEmails`; the limit argument is passed
through unclamped. -/
def getEmailsRequest (s : JmapSession) (mailboxId : Option String) (limit : Int) :
    JmapRequest :=
  { usingCaps := [capCore, capMail],
    methodCalls := [
      ("Email/query", .obj [
        ("accountId", .str s.accountId),
        ("filter", match mailboxId with
          | some id => .obj [("inMailbox", .str id)]
          | none => .obj []),
        ("sort", .arr [.obj [("property", .str "receivedAt"), ("isAscending", .bool false)]]),
        ("limit", .num limit)], "query"),
      ("Email/get", .obj [
        ("accountId", .str s.accountId),
        ("#ids", .obj [("resultOf", .str "query"), ("name", .str "Email/query"),
                       ("path", .str "/ids")]),
        ("properties", .arr (["id", "subject", "from", "to", "receivedAt", "preview",
                              "hasAttachment"].map JVal.str))], "emails")] }

/-- `getMailboxes`: one batch, then `response.methodResponses[0][1].list`. -/
def getMailboxes (s : JmapSession) : Net JVal := do
  let resp ← makeRequest (getMailboxesRequest s)
  Net.ofExcept (do
    let a ← stepArgs resp 0
    jsGet a "list")

/-- The response handling of `getEmails`:
`return response.methodResponses[1][1].list`. -/
def getEmailsResolve (resp : JmapResponse) : Except JsError JVal := do
  let a ← stepArgs resp 1
  jsGet a "list"

/-- `getEmails`: posts the two-step batch, reads the second step's list. -/
def getEmails (s : JmapSession) (mailboxId : Option String) (limit : Int) : Net JVal := do
  let resp ← makeRequest (getEmailsRequest s mailboxId limit)
  Net.ofExcept (getEmailsResolve resp)

/-! ### C1: truncated batch responses -/

/-- A fixed session for the concrete runs. -/
def sessionA : JmapSession :=
  { apiUrl := "https://api.fastmail.com/jmap/api/", accountId := "acc1",
    capabilities := .obj [] }

/-- An oracle whose reply to every batch is a single-step response — the
"truncated mock response" of the claim (the `getEmails` batch has two
method calls). -/
def truncatedOracle : Oracle := fun _ =>
  { ok := true, statusText := "OK",
    body := { methodResponses := [("Email/query", .obj [("ids", .arr [])], "query")],
              sessionState := "state0" } }

/-- C1, counterexample.  The `getEmails` batch has two method calls and the
injected response has one step, yet the operation does not fail with a
`ProtocolError` naming the count mismatch: no such check exists, and the
run ends in the bare runtime `typeError` raised by indexing the missing
second step — an error that is not a thrown `Error` and carries no message
at all. -/
theorem c1_counterexample :
    (getEmailsRequest sessionA none 20).methodCalls.length = 2 ∧
    ((truncatedOracle (getEmailsRequest sessionA none 20)).body.methodResponses.length = 1) ∧
    (getEmails sessionA none 20 truncatedOracle).2 = .error .typeError ∧
    (∀ msg : String, JsError.typeError ≠ JsError.thrown msg) := by
  refine ⟨rfl, rfl, rfl, ?_⟩
  intro msg h
  cases h

/-- C1, amended:  neither `makeRequest` nor `getEmails` checks the response
step count.  Whenever the service replies ok to the two-call `getEmails`
batch with fewer than two response steps, the operation fails with the
runtime `typeError` from indexing the missing step (not with any thrown
`Error` describing the mismatch). -/
theorem c1_truncated_response_typeError (s : JmapSession) (mb : Option String)
    (limit : Int) (o : Oracle)
    (hok : (o (getEmailsRequest s mb limit)).ok = true)
    (hlen : (o (getEmailsRequest s mb limit)).body.methodResponses.length < 2) :
    (getEmails s mb limit o).2 = .error .typeError := by
  have hnone : (o (getEmailsRequest s mb limit)).body.methodResponses[1]? = none :=
    List.getElem?_eq_none (Nat.lt_succ_iff.mp hlen)
  simp only [getEmails, Net.bind_eq, Net.bind_apply, makeRequest, hok, if_true]
  simp [getEmailsResolve, stepArgs, hnone, Net.ofExcept, Bind.bind, Except.bind]

/-- C1 witness: the amended theorem applied to the concrete truncated run. -/
theorem c1_truncated_response_typeError_witness :
    (getEmails sessionA none 20 truncatedOracle).2 = .error .typeError :=
  c1_truncated_response_typeError sessionA none 20 truncatedOracle (by rfl) (by decide)

/-! ### The session cache (`getSession`) -/

/-- The body of the session bootstrap reply: `accounts` is the wire object
mapping account ids to account data, in wire (insertion) order. -/
structure SessionData where
  apiUrl : String
  accounts : List (String × JVal)
  capabilities : JVal
deriving Inhabited

/-- `Object.keys` of the accounts object.  Account ids are not array-index
strings, so JavaScript's key order is insertion order. -/
def accountKeys (accounts : List (String × JVal)) : List String :=
  accounts.map Prod.fst

/-- The `JmapSession` built from the bootstrap body:
`accountId = Object.keys(sessionData.accounts)[0]`.  (With no accounts at
all, JavaScript would store `undefined`; that unreachable corner is
represented by the empty string.) -/
def mkSession (d : SessionData) : JmapSession :=
  { apiUrl := d.apiUrl,
    accountId := (accountKeys d.accounts).headD "",
    capabilities := d.capabilities }

/-- The client's only mutable field: the memoised session. -/
structure ClientState where
  session : Option JmapSession
deriving Inhabited

/-- The HTTP reply of the session bootstrap endpoint. -/
structure SessionReply where
  ok : Bool
  statusText : String
  data : SessionData
deriving Inhabited

/-- One call to `getSession`, as (state after the call, outcome, number of
session-endpoint fetches performed by this call).  A cached session is
returned as-is with no fetch; otherwise the endpoint is fetched once, a
non-ok status throws (leaving the cache empty), and an ok reply is parsed
and cached. -/
def getSession (st : ClientState) (reply : SessionReply) :
    ClientState × Except JsError JmapSession × Nat :=
  match st.session with
  | some s => (st, .ok s, 0)
  | none =>
    if reply.ok then
      ({ session := some (mkSession reply.data) }, .ok (mkSession reply.data), 1)
    else
      (st, .error (.thrown ("Failed to get session: " ++ reply.statusText)), 1)

/-- C6: `getSession` is idempotent and fetches the bootstrap endpoint at
most once for the lifetime of the client.  With a cached session the call
returns that same session, changes nothing, and performs zero fetches —
whatever the endpoint would now reply.  From the empty cache, an ok reply
is fetched once and cached, and the immediately following call returns the
identical session value with zero fetches and an unchanged state. -/
theorem c6_getSession_memoised (st : ClientState) (s : JmapSession)
    (r r' : SessionReply) (h : st.session = some s) :
    getSession st r = (st, .ok s, 0) ∧
    (∀ st0 : ClientState, st0.session = none → r.ok = true →
      getSession st0 r = ({ session := some (mkSession r.data) },
                          .ok (mkSession r.data), 1) ∧
      getSession (getSession st0 r).1 r' =
        ((getSession st0 r).1, .ok (mkSession r.data), 0)) := by
  constructor
  · simp [getSession, h]
  · intro st0 h0 hok
    constructor
    · simp [getSession, h0, hok]
    · simp [getSession, h0, hok]

/-- C6 witness: a concrete client that has cached `sessionA`, then a fresh
client bootstrapping from a concrete ok reply. -/
theorem c6_getSession_memoised_witness :
    getSession ⟨some sessionA⟩ ⟨true, "OK", ⟨"u", [("acc1", .obj [])], .obj []⟩⟩ =
      (⟨some sessionA⟩, .ok sessionA, 0) ∧
    (∀ st0 : ClientState, st0.session = none →
      (true : Bool) = true →
      getSession st0 ⟨true, "OK", ⟨"u", [("acc1", .obj [])], .obj []⟩⟩ =
        ({ session := some (mkSession ⟨"u", [("acc1", .obj [])], .obj []⟩) },
         .ok (mkSession ⟨"u", [("acc1", .obj [])], .obj []⟩), 1) ∧
      getSession (getSession st0 ⟨true, "OK", ⟨"u", [("acc1", .obj [])], .obj []⟩⟩).1
          ⟨false, "Gone", ⟨"v", [], .obj []⟩⟩ =
        ((getSession st0 ⟨true, "OK", ⟨"u", [("acc1", .obj [])], .obj []⟩⟩).1,
         .ok (mkSession ⟨"u", [("acc1", .obj [])], .obj []⟩), 0)) :=
  c6_getSession_memoised ⟨some sessionA⟩ sessionA
    ⟨true, "OK", ⟨"u", [("acc1", .obj [])], .obj []⟩⟩
    ⟨false, "Gone", ⟨"v", [], .obj []⟩⟩ rfl

/-! ### Remaining domain operations -/

/-- The single-step batch of `getEmailById`. -/
def getEmailByIdRequest (s : JmapSession) (id : String) : JmapRequest :=
  { usingCaps := [capCore, capMail],
    methodCalls := [
      ("Email/get", .obj [
        ("accountId", .str s.accountId),
        ("ids", .arr [.str id]),
        ("properties", .arr (["id", "subject", "from", "to", "cc", "bcc", "receivedAt",
                              "textBody", "htmlBody", "attachments"].map JVal.str))],
       "email")] }

/-- `getEmailById`: `response.methodResponses[0][1].list[0]`. -/
def getEmailById (s : JmapSession) (id : String) : Net JVal := do
  let resp ← makeRequest (getEmailByIdRequest s id)
  Net.ofExcept (do
    let a ← stepArgs resp 0
    let l ← jsGet a "list"
    match l with
    | .arr es => .ok ((es.get? 0).getD .undefined)
    | .undefined => .error .typeError
    | .null => .error .typeError
    | _ => .ok .undefined)

/-- The `Identity/get` batch of `getIdentities`. -/
def getIdentitiesRequest (s : JmapSession) : JmapRequest :=
  { usingCaps := [capCore, capSubmission],
    methodCalls := [("Identity/get", .obj [("accountId", .str s.accountId)], "identities")] }

def getIdentities (s : JmapSession) : Net JVal := do
  let resp ← makeRequest (getIdentitiesRequest s)
  Net.ofExcept (do
    let a ← stepArgs resp 0
    jsGet a "list")

/-- `getDefaultIdentity`:
`identities.find(id => id.mayDelete === false) || identities[0]`. -/
def getDefaultIdentity (s : JmapSession) : Net JVal := do
  let identities ← getIdentities s
  Net.ofExcept (do
    let es ← jsArrElems identities
    let found ← jsFindE (fun idv => do
      let m ← jsGet idv "mayDelete"
      .ok (jsEqFalse m)) es
    if truthy found then .ok found
    else .ok ((es.get? 0).getD .undefined))

/-- `mailboxes.find(mb => mb.role === role) ||
mailboxes.find(mb => mb.name.toLowerCase().includes(word))` — the
container-resolution chain shared by `sendEmail` (roles `drafts`/`sent`,
words `draft`/`sent`), `deleteEmail` and `bulkDelete` (role and word
`trash`). -/
def findMailbox (role word : String) (mailboxes : JVal) : Except JsError JVal := do
  let es ← jsArrElems mailboxes
  let first ← jsFindE (fun mb => do
    let r ← jsGet mb "role"
    .ok (jsEqStr r role)) es
  if truthy first then .ok first
  else jsFindE (fun mb => do
    let n ← jsGet mb "name"
    match n with
    | .str nm => .ok (strIncludes (lowerStr nm) word)
    | _ => .error .typeError) es

/-- The `Email/set` batch of `markEmailRead`. -/
def markEmailReadRequest (s : JmapSession) (emailId : String) (read : Bool) : JmapRequest :=
  { usingCaps := [capCore, capMail],
    methodCalls := [
      ("Email/set", .obj [
        ("accountId", .str s.accountId),
        ("update", .obj [(emailId, .obj [("keywords",
          if read then .obj [("$seen", .bool true)] else .obj [])])])], "updateEmail")] }

/-- The shared single-id rejection gate:
`if (result.notUpdated && result.notUpdated[emailId]) throw new Error(head +
JSON.stringify(result.notUpdated[emailId]))`. -/
def notUpdatedGate (msgHead : String) (emailId : String) (resp : JmapResponse) :
    Except JsError Unit := do
  let result ← stepArgs resp 0
  let nu ← jsGet result "notUpdated"
  if truthy nu then
    let entry ← jsGet nu emailId
    if truthy entry then
      .error (.thrown (msgHead ++ stringify entry))
    else .ok ()
  else .ok ()

def markEmailRead (s : JmapSession) (emailId : String) (read : Bool) : Net Unit := do
  let resp ← makeRequest (markEmailReadRequest s emailId read)
  Net.ofExcept (notUpdatedGate
    ("Failed to mark email as " ++ (if read then "read" else "unread") ++ ": ")
    emailId resp)

/-- The `Email/set` batch of `deleteEmail` (a move to the trash mailbox). -/
def deleteEmailRequest (s : JmapSession) (emailId trashId : String) : JmapRequest :=
  { usingCaps := [capCore, capMail],
    methodCalls := [
      ("Email/set", .obj [
        ("accountId", .str s.accountId),
        ("update", .obj [(emailId, .obj [("mailboxIds", .obj [(trashId, .bool true)])])])],
       "moveToTrash")] }

/-- `deleteEmail`: resolves the trash mailbox from the container list
(role `trash` first, then a name containing `trash`), throws before any
mutation when it is missing, otherwise posts the move and checks
`notUpdated[emailId]`. -/
def deleteEmail (s : JmapSession) (emailId : String) : Net Unit := do
  let mailboxes ← getMailboxes s
  let trash ← Net.ofExcept (findMailbox "trash" "trash" mailboxes)
  if truthy trash then
    let tid ← Net.ofExcept (jsGet trash "id")
    let resp ← makeRequest (deleteEmailRequest s emailId (jsToPropKey tid))
    Net.ofExcept (notUpdatedGate "Failed to delete email: " emailId resp)
  else Net.throw (.thrown "Could not find Trash mailbox")

/-- The `Email/set` batch of `moveEmail`. -/
def moveEmailRequest (s : JmapSession) (emailId targetMailboxId : String) : JmapRequest :=
  { usingCaps := [capCore, capMail],
    methodCalls := [
      ("Email/set", .obj [
        ("accountId", .str s.accountId),
        ("update", .obj [(emailId, .obj [("mailboxIds",
          .obj [(targetMailboxId, .bool true)])])])], "moveEmail")] }

def moveEmail (s : JmapSession) (emailId targetMailboxId : String) : Net Unit := do
  let resp ← makeRequest (moveEmailRequest s emailId targetMailboxId)
  Net.ofExcept (notUpdatedGate "Failed to move email: " emailId resp)

/-- The parameter object of `sendEmail` (`fromAddr` is the TS field
`from`, a Lean keyword). -/
structure EmailInput where
  toAddrs : List String
  cc : Option (List String) := none
  bcc : Option (List String) := none
  subject : String
  textBody : Option String := none
  htmlBody : Option String := none
  fromAddr : Option String := none
  mailboxId : Option String := none
deriving Inhabited

/-- The draft object created by `sendEmail`.  `textBody`/`htmlBody` are
the `cond ? [...] : undefined` fields (an empty string is falsy, so it
counts as absent, exactly as in the `||`/`?:` sites of the method). -/
def emailObjectFields (email : EmailInput) (fromEmail : JVal)
    (initialMailboxId : String) : List (String × JVal) :=
  [("mailboxIds", .obj [(initialMailboxId, .bool true)]),
   ("keywords", .obj [("$draft", .bool true)]),
   ("from", .arr [.obj [("email", fromEmail)]]),
   ("to", .arr (email.toAddrs.map (fun a => .obj [("email", .str a)]))),
   ("cc", .arr ((email.cc.getD []).map (fun a => .obj [("email", .str a)]))),
   ("bcc", .arr ((email.bcc.getD []).map (fun a => .obj [("email", .str a)]))),
   ("subject", .str email.subject),
   ("textBody", match strOpt email.textBody with
     | some _ => .arr [.obj [("partId", .str "text"), ("type", .str "text/plain")]]
     | none => .undefined),
   ("htmlBody", match strOpt email.htmlBody with
     | some _ => .arr [.obj [("partId", .str "html"), ("type", .str "text/html")]]
     | none => .undefined),
   ("bodyValues", .obj
     ((match strOpt email.textBody with
       | some t => [("text", .obj [("value", .str t)])]
       | none => []) ++
      (match strOpt email.htmlBody with
       | some h => [("html", .obj [("value", .str h)])]
       | none => [])))]

/-- The create-then-submit batch of `sendEmail`: an `Email/set` creating
`draft`, then an `EmailSubmission/set` whose `emailId` is the back-reference
`#draft` and whose `onSuccessUpdateEmail` patch moves the email to the sent
mailbox. -/
def sendEmailRequest (s : JmapSession) (email : EmailInput) (identityId fromEmail : JVal)
    (initialMailboxId sentMailboxId : String) : JmapRequest :=
  { usingCaps := [capCore, capMail, capSubmission],
    methodCalls := [
      ("Email/set", .obj [
        ("accountId", .str s.accountId),
        ("create", .obj [("draft", .obj (emailObjectFields email fromEmail initialMailboxId))])],
       "createEmail"),
      ("EmailSubmission/set", .obj [
        ("accountId", .str s.accountId),
        ("create", .obj [("submission", .obj [
          ("emailId", .str "#draft"),
          ("identityId", identityId),
          ("envelope", .obj [
            ("mailFrom", .obj [("email", fromEmail)]),
            ("rcptTo", .arr (email.toAddrs.map (fun a => .obj [("email", .str a)])))])])]),
        ("onSuccessUpdateEmail", .obj [("#submission", .obj [
          ("mailboxIds", .obj [(sentMailboxId, .bool true)]),
          ("keywords", .obj [])])])], "submitEmail")] }

/-- The response handling of `sendEmail`: check the create step's
`notCreated.draft`, then the submission step's `notCreated.submission`,
then return `submissionResult.created?.submission?.id || 'unknown'`. -/
def sendEmailResolve (resp : JmapResponse) : Except JsError JVal := do
  let emailResult ← stepArgs resp 0
  let nc ← jsGet emailResult "notCreated"
  if truthy nc then
    let d ← jsGet nc "draft"
    if truthy d then
      .error (.thrown ("Failed to create email: " ++ stringify d))
    else Except.ok ()
  else Except.ok ()
  let submissionResult ← stepArgs resp 1
  let snc ← jsGet submissionResult "notCreated"
  if truthy snc then
    let sub ← jsGet snc "submission"
    if truthy sub then
      .error (.thrown ("Failed to submit email: " ++ stringify sub))
    else Except.ok ()
  else Except.ok ()
  let created ← jsGet submissionResult "created"
  let idv := jsGetOpt (jsGetOpt created "submission") "id"
  if truthy idv then .ok idv else .ok (.str "unknown")

/-- `sendEmail`, in source order: default identity (one round trip; throws
when falsy), `fromEmail = email.from || identity.email`, the container list
(one round trip), drafts and sent resolution with their throws, the
`mailboxId || drafts.id` default, the body-presence guard, then the
two-step batch (one round trip) and its resolution. -/
def sendEmail (s : JmapSession) (email : EmailInput) : Net JVal := do
  let identity ← getDefaultIdentity s
  if truthy identity then
    let fromEmail ← match strOpt email.fromAddr with
      | some f => Net.pure (JVal.str f)
      | none => Net.ofExcept (jsGet identity "email")
    let mailboxes ← getMailboxes s
    let drafts ← Net.ofExcept (findMailbox "drafts" "draft" mailboxes)
    let sent ← Net.ofExcept (findMailbox "sent" "sent" mailboxes)
    if truthy drafts then
      if truthy sent then
        let initialMailboxId ← match strOpt email.mailboxId with
          | some m => Net.pure m
          | none => do
            let did ← Net.ofExcept (jsGet drafts "id")
            Net.pure (jsToPropKey did)
        if (strOpt email.textBody).isNone ∧ (strOpt email.htmlBody).isNone then
          Net.throw (.thrown "Either textBody or htmlBody must be provided")
        else
          let identityId ← Net.ofExcept (jsGet identity "id")
          let sentId ← Net.ofExcept (jsGet sent "id")
          let resp ← makeRequest (sendEmailRequest s email identityId fromEmail
            initialMailboxId (jsToPropKey sentId))
          Net.ofExcept (sendEmailResolve resp)
      else Net.throw (.thrown "Could not find Sent mailbox to move email after sending")
    else Net.throw (.thrown "Could not find Drafts mailbox to save email")
  else Net.throw (.thrown "No sending identity found")

/-- The query-then-fetch batch of `getRecentEmails`; the query limit is
`Math.min(limit, 50)`. -/
def getRecentEmailsRequest (s : JmapSession) (mailboxIdKey : String) (limit : Int) :
    JmapRequest :=
  { usingCaps := [capCore, capMail],
    methodCalls := [
      ("Email/query", .obj [
        ("accountId", .str s.accountId),
        ("filter", .obj [("inMailbox", .str mailboxIdKey)]),
        ("sort", .arr [.obj [("property", .str "receivedAt"), ("isAscending", .bool false)]]),
        ("limit", .num (min limit 50))], "query"),
      ("Email/get", .obj [
        ("accountId", .str s.accountId),
        ("#ids", .obj [("resultOf", .str "query"), ("name", .str "Email/query"),
                       ("path", .str "/ids")]),
        ("properties", .arr (["id", "subject", "from", "to", "receivedAt", "preview",
                              "hasAttachment", "keywords"].map JVal.str))], "emails")] }

/-- `getRecentEmails`: finds the target mailbox by
`mb.role === name.toLowerCase() || mb.name.toLowerCase().includes(name.toLowerCase())`,
throws when none matches, then posts the clamped query-then-fetch batch. -/
def getRecentEmails (s : JmapSession) (limit : Int) (mailboxName : String) : Net JVal := do
  let mailboxes ← getMailboxes s
  let target ← Net.ofExcept (do
    let es ← jsArrElems mailboxes
    jsFindE (fun mb => do
      let r ← jsGet mb "role"
      if jsEqStr r (lowerStr mailboxName) then .ok true
      else do
        let n ← jsGet mb "name"
        match n with
        | .str nm => .ok (strIncludes (lowerStr nm) (lowerStr mailboxName))
        | _ => .error .typeError) es)
  if truthy target then
    let tid ← Net.ofExcept (jsGet target "id")
    let resp ← makeRequest (getRecentEmailsRequest s (jsToPropKey tid) limit)
    Net.ofExcept (do
      let a ← stepArgs resp 1
      jsGet a "list")
  else Net.throw (.thrown ("Could not find mailbox: " ++ mailboxName))

/-! ### Bulk operations and advanced search (extended client) -/

/-- `updates[id] = patch` for each submitted id, in submission order. -/
def bulkUpdates (emailIds : List String) (patch : JVal) : JVal :=
  .obj (emailIds.map (fun id => (id, patch)))

def bulkMarkReadRequest (s : JmapSession) (emailIds : List String) (read : Bool) :
    JmapRequest :=
  { usingCaps := [capCore, capMail],
    methodCalls := [
      ("Email/set", .obj [
        ("accountId", .str s.accountId),
        ("update", bulkUpdates emailIds (.obj [("keywords",
          if read then .obj [("$seen", .bool true)] else .obj [])]))], "bulkUpdate")] }

/-- The shared bulk rejection gate:
`if (result.notUpdated && Object.keys(result.notUpdated).length > 0)
throw new Error(head + JSON.stringify(result.notUpdated))` — one aggregate
error embedding the entire `notUpdated` collection. -/
def bulkGate (msgHead : String) (resp : JmapResponse) : Except JsError Unit := do
  let result ← stepArgs resp 0
  let nu ← jsGet result "notUpdated"
  if truthy nu then
    match nu with
    | .obj fs =>
      if (fs.map Prod.fst).length > 0 then
        .error (.thrown (msgHead ++ stringify nu))
      else .ok ()
    | _ => .ok ()
  else .ok ()

def bulkMarkRead (s : JmapSession) (emailIds : List String) (read : Bool) : Net Unit := do
  let resp ← makeRequest (bulkMarkReadRequest s emailIds read)
  Net.ofExcept (bulkGate "Failed to update some emails: " resp)

def bulkMoveRequest (s : JmapSession) (emailIds : List String) (targetMailboxId : String) :
    JmapRequest :=
  { usingCaps := [capCore, capMail],
    methodCalls := [
      ("Email/set", .obj [
        ("accountId", .str s.accountId),
        ("update", bulkUpdates emailIds (.obj [("mailboxIds",
          .obj [(targetMailboxId, .bool true)])]))], "bulkMove")] }

def bulkMove (s : JmapSession) (emailIds : List String) (targetMailboxId : String) :
    Net Unit := do
  let resp ← makeRequest (bulkMoveRequest s emailIds targetMailboxId)
  Net.ofExcept (bulkGate "Failed to move some emails: " resp)

def bulkDeleteRequest (s : JmapSession) (emailIds : List String) (trashId : String) :
    JmapRequest :=
  { usingCaps := [capCore, capMail],
    methodCalls := [
      ("Email/set", .obj [
        ("accountId", .str s.accountId),
        ("update", bulkUpdates emailIds (.obj [("mailboxIds",
          .obj [(trashId, .bool true)])]))], "bulkDelete")] }

/-- `bulkDelete`: trash resolution exactly as in `deleteEmail`, then the
bulk move-to-trash batch and the aggregate rejection gate. -/
def bulkDelete (s : JmapSession) (emailIds : List String) : Net Unit := do
  let mailboxes ← getMailboxes s
  let trash ← Net.ofExcept (findMailbox "trash" "trash" mailboxes)
  if truthy trash then
    let tid ← Net.ofExcept (jsGet trash "id")
    let resp ← makeRequest (bulkDeleteRequest s emailIds (jsToPropKey tid))
    Net.ofExcept (bulkGate "Failed to delete some emails: " resp)
  else Net.throw (.thrown "Could not find Trash mailbox")

/-- The parameter object of `advancedSearch` (`fromAddr`/`toAddr` are the
TS fields `from`/`to`; `from` is a Lean keyword). -/
structure SearchFilters where
  query : Option String := none
  fromAddr : Option String := none
  toAddr : Option String := none
  subject : Option String := none
  hasAttachment : Option Bool := none
  isUnread : Option Bool := none
  mailboxId : Option String := none
  after : Option String := none
  before : Option String := none
  limit : Option Int := none
deriving Inhabited

/-- The JMAP filter assembled by `advancedSearch`, in assignment order.
String filters are truthiness-guarded (`if (filters.query) ...`), so an
empty string is skipped.  `hasKeyword` is assigned `'$seen'` only when
`isUnread === false`: when `isUnread` is `true`, the assigned value is
`undefined` and the key is then deleted in favour of `notKeyword`
(appended last); when `isUnread` is absent, neither key is assigned. -/
def advancedSearchFilterFields (f : SearchFilters) : List (String × JVal) :=
  (match strOpt f.query with | some q => [("text", JVal.str q)] | none => []) ++
  (match strOpt f.fromAddr with | some v => [("from", JVal.str v)] | none => []) ++
  (match strOpt f.toAddr with | some v => [("to", JVal.str v)] | none => []) ++
  (match strOpt f.subject with | some v => [("subject", JVal.str v)] | none => []) ++
  (match f.hasAttachment with | some b => [("hasAttachment", JVal.bool b)] | none => []) ++
  (match f.isUnread with | some false => [("hasKeyword", JVal.str "$seen")] | _ => []) ++
  (match strOpt f.mailboxId with | some v => [("inMailbox", JVal.str v)] | none => []) ++
  (match strOpt f.after with | some v => [("after", JVal.str v)] | none => []) ++
  (match strOpt f.before with | some v => [("before", JVal.str v)] | none => []) ++
  (match f.isUnread with | some true => [("notKeyword", JVal.str "$seen")] | _ => [])

/-- The query-then-fetch batch of `advancedSearch`; the query limit is
`Math.min(filters.limit || 50, 100)`. -/
def advancedSearchRequest (s : JmapSession) (f : SearchFilters) : JmapRequest :=
  { usingCaps := [capCore, capMail],
    methodCalls := [
      ("Email/query", .obj [
        ("accountId", .str s.accountId),
        ("filter", .obj (advancedSearchFilterFields f)),
        ("sort", .arr [.obj [("property", .str "receivedAt"), ("isAscending", .bool false)]]),
        ("limit", .num (min (jsOrInt f.limit 50) 100))], "query"),
      ("Email/get", .obj [
        ("accountId", .str s.accountId),
        ("#ids", .obj [("resultOf", .str "query"), ("name", .str "Email/query"),
                       ("path", .str "/ids")]),
        ("properties", .arr (["id", "subject", "from", "to", "cc", "receivedAt", "preview",
                              "hasAttachment", "keywords", "threadId"].map JVal.str))],
       "emails")] }

def advancedSearch (s : JmapSession) (f : SearchFilters) : Net JVal := do
  let resp ← makeRequest (advancedSearchRequest s f)
  Net.ofExcept (do
    let a ← stepArgs resp 1
    jsGet a "list")

@[simp] theorem Net.ofExcept_apply (e : Except JsError α) (o : Oracle) :
    Net.ofExcept e o = ([], e) := by
  cases e <;> rfl

/-! ### C2: single-record mutate rejections -/

/-- A concrete rejection reason, as the remote would report it. -/
def rejReason : JVal := .obj [("type", .str "forbidden")]

/-- An oracle whose reply to the mutate batch rejects `idA`. -/
def c2Oracle : Oracle := fun _ =>
  { ok := true, statusText := "OK",
    body := { methodResponses :=
                [("Email/set", .obj [("notUpdated", .obj [("idA", rejReason)])],
                  "updateEmail")],
              sessionState := "state0" } }

/-- C2, counterexample.  With the target id `idA` rejected, `markEmailRead`
throws the plain `Error` built from the stringified reason object: the
reason code appears verbatim in the message, but the error does not carry
the id `idA` at all (and the code defines no `DomainRejectionError`
class — every failure here is `JsError.thrown`, a bare message). -/
theorem c2_counterexample :
    (markEmailRead sessionA "idA" true c2Oracle).2 =
      .error (.thrown ("Failed to mark email as read: " ++ stringify rejReason)) ∧
    strIncludes ("Failed to mark email as read: " ++ stringify rejReason) "forbidden" = true ∧
    strIncludes ("Failed to mark email as read: " ++ stringify rejReason) "idA" = false := by
  refine ⟨rfl, ?_, ?_⟩ <;> decide

/-- C2, amended.  The single-record mutate operations throw if and only if
the response step's `notUpdated` collection has a truthy entry for the
target id, and the thrown error is a plain `Error` whose message appends
the stringified reason to a fixed text (so the reason is carried verbatim,
the id is not, and no dedicated rejection-error class is involved); when
`notUpdated` is absent or lacks the target id they return normally.  The
last three conjuncts identify `markEmailRead`, `moveEmail` and
`deleteEmail` (after successful trash resolution) with this shared gate. -/
theorem c2_mutate_rejection_gate (emailId : String) :
    (∀ (msgHead : String) (resp : JmapResponse) (result nu entry : JVal),
      stepArgs resp 0 = .ok result →
      jsGet result "notUpdated" = .ok nu →
      jsGet nu emailId = .ok entry →
      notUpdatedGate msgHead emailId resp =
        (if truthy nu && truthy entry then
          .error (.thrown (msgHead ++ stringify entry))
        else .ok ())) ∧
    (∀ (s : JmapSession) (read : Bool) (o : Oracle),
      (o (markEmailReadRequest s emailId read)).ok = true →
      (markEmailRead s emailId read o).2 =
        notUpdatedGate
          ("Failed to mark email as " ++ (if read then "read" else "unread") ++ ": ")
          emailId (o (markEmailReadRequest s emailId read)).body) ∧
    (∀ (s : JmapSession) (targetMailboxId : String) (o : Oracle),
      (o (moveEmailRequest s emailId targetMailboxId)).ok = true →
      (moveEmail s emailId targetMailboxId o).2 =
        notUpdatedGate "Failed to move email: " emailId
          (o (moveEmailRequest s emailId targetMailboxId)).body) ∧
    (∀ (s : JmapSession) (o : Oracle) (mlStep mailboxes trash tid : JVal),
      (o (getMailboxesRequest s)).ok = true →
      stepArgs (o (getMailboxesRequest s)).body 0 = .ok mlStep →
      jsGet mlStep "list" = .ok mailboxes →
      findMailbox "trash" "trash" mailboxes = .ok trash →
      truthy trash = true →
      jsGet trash "id" = .ok tid →
      (o (deleteEmailRequest s emailId (jsToPropKey tid))).ok = true →
      (deleteEmail s emailId o).2 =
        notUpdatedGate "Failed to delete email: " emailId
          (o (deleteEmailRequest s emailId (jsToPropKey tid))).body) := by
  refine ⟨?_, ?_, ?_, ?_⟩
  · intro msgHead resp result nu entry h0 hnu hentry
    by_cases hnt : truthy nu = true
    · simp [notUpdatedGate, h0, hnu, hentry, hnt, Bind.bind, Except.bind]
    · simp only [Bool.not_eq_true] at hnt
      simp [notUpdatedGate, h0, hnu, hnt, Bind.bind, Except.bind]
  · intro s read o hok
    simp [markEmailRead, Net.bind_apply, makeRequest, hok]
  · intro s targetMailboxId o hok
    simp [moveEmail, Net.bind_apply, makeRequest, hok]
  · intro s o mlStep mailboxes trash tid hok hstep hml hfm htr htid hok2
    simp [deleteEmail, getMailboxes, Net.bind_apply, makeRequest, hok, hstep, hml, hfm,
      htr, htid, hok2, Bind.bind, Except.bind]

/-- C2 witness: the gate case of the amended theorem at the concrete
rejected response of `c2Oracle`, and `markEmailRead` reduced to the gate
on that same run. -/
theorem c2_mutate_rejection_gate_witness :
    notUpdatedGate "Failed to mark email as read: " "idA"
        (c2Oracle (markEmailReadRequest sessionA "idA" true)).body =
      (if truthy (JVal.obj [("idA", rejReason)]) && truthy rejReason then
        .error (.thrown ("Failed to mark email as read: " ++ stringify rejReason))
      else .ok ()) ∧
    (markEmailRead sessionA "idA" true c2Oracle).2 =
      notUpdatedGate "Failed to mark email as read: " "idA"
        (c2Oracle (markEmailReadRequest sessionA "idA" true)).body :=
  ⟨(c2_mutate_rejection_gate "idA").1 "Failed to mark email as read: "
      (c2Oracle (markEmailReadRequest sessionA "idA" true)).body
      (.obj [("notUpdated", .obj [("idA", rejReason)])])
      (.obj [("idA", rejReason)]) rejReason rfl rfl rfl,
   (c2_mutate_rejection_gate "idA").2.1 sessionA true c2Oracle rfl⟩

/-! ### C3: bulk mutate aggregate rejections -/

/-- C3.  The bulk mutate operations return normally exactly when the
response step's `notUpdated` collection is absent or empty, and otherwise
throw a single aggregate error embedding the entire `notUpdated`
collection — whose keys are exactly the rejected ids — stringified
verbatim.  Stated for `bulkMarkRead`, `bulkMove`, and `bulkDelete` (the
latter after its trash resolution). -/
theorem c3_bulk_aggregate_rejection (s : JmapSession) (emailIds : List String)
    (read : Bool) (targetMailboxId : String) (o : Oracle) :
    (∀ (result : JVal) (nuf : List (String × JVal)),
      (o (bulkMarkReadRequest s emailIds read)).ok = true →
      stepArgs (o (bulkMarkReadRequest s emailIds read)).body 0 = .ok result →
      jsGet result "notUpdated" = .ok (.obj nuf) →
      (bulkMarkRead s emailIds read o).2 =
        (if nuf.isEmpty then Except.ok () else
          Except.error (.thrown ("Failed to update some emails: " ++ stringify (.obj nuf))))) ∧
    (∀ result : JVal,
      (o (bulkMarkReadRequest s emailIds read)).ok = true →
      stepArgs (o (bulkMarkReadRequest s emailIds read)).body 0 = .ok result →
      jsGet result "notUpdated" = .ok .undefined →
      (bulkMarkRead s emailIds read o).2 = .ok ()) ∧
    (∀ (result : JVal) (nuf : List (String × JVal)),
      (o (bulkMoveRequest s emailIds targetMailboxId)).ok = true →
      stepArgs (o (bulkMoveRequest s emailIds targetMailboxId)).body 0 = .ok result →
      jsGet result "notUpdated" = .ok (.obj nuf) →
      (bulkMove s emailIds targetMailboxId o).2 =
        (if nuf.isEmpty then Except.ok () else
          Except.error (.thrown ("Failed to move some emails: " ++ stringify (.obj nuf))))) ∧
    (∀ (mlStep mailboxes trash tid result : JVal) (nuf : List (String × JVal)),
      (o (getMailboxesRequest s)).ok = true →
      stepArgs (o (getMailboxesRequest s)).body 0 = .ok mlStep →
      jsGet mlStep "list" = .ok mailboxes →
      findMailbox "trash" "trash" mailboxes = .ok trash →
      truthy trash = true →
      jsGet trash "id" = .ok tid →
      (o (bulkDeleteRequest s emailIds (jsToPropKey tid))).ok = true →
      stepArgs (o (bulkDeleteRequest s emailIds (jsToPropKey tid))).body 0 = .ok result →
      jsGet result "notUpdated" = .ok (.obj nuf) →
      (bulkDelete s emailIds o).2 =
        (if nuf.isEmpty then Except.ok () else
          Except.error (.thrown ("Failed to delete some emails: " ++ stringify (.obj nuf))))) := by
  refine ⟨?_, ?_, ?_, ?_⟩
  · intro result nuf hok h0 hnu
    rcases nuf with _ | ⟨p, rest⟩ <;>
      simp [bulkMarkRead, bulkGate, Net.bind_apply, makeRequest, hok, h0, hnu,
        Bind.bind, Except.bind, truthy]
  · intro result hok h0 hnu
    simp [bulkMarkRead, bulkGate, Net.bind_apply, makeRequest, hok, h0, hnu,
      Bind.bind, Except.bind, truthy]
  · intro result nuf hok h0 hnu
    rcases nuf with _ | ⟨p, rest⟩ <;>
      simp [bulkMove, bulkGate, Net.bind_apply, makeRequest, hok, h0, hnu,
        Bind.bind, Except.bind, truthy]
  · intro mlStep mailboxes trash tid result nuf hok hstep hml hfm htr htid hok2 h0 hnu
    rcases nuf with _ | ⟨p, rest⟩ <;>
    · simp only [bulkDelete, getMailboxes, Net.bind_eq, Net.bind_apply, makeRequest, hok,
        if_true, Net.ofExcept_apply, hstep, hml, hfm, htr, htid, hok2, Bind.bind,
        Except.bind]
      simp [bulkGate, h0, hnu, truthy, Bind.bind, Except.bind]

/-- An oracle that rejects only `idB` out of a bulk update batch. -/
def c3Oracle : Oracle := fun _ =>
  { ok := true, statusText := "OK",
    body := { methodResponses :=
                [("Email/set", .obj [("notUpdated", .obj [("idB", rejReason)])],
                  "bulkUpdate")],
              sessionState := "state0" } }

/-- C3 witness: ids `[idA, idB, idC]` with only `idB` rejected — the single
aggregate error names exactly `idB` (its message mentions `idB` and
neither `idA` nor `idC`), and an empty rejection set returns normally. -/
theorem c3_bulk_aggregate_rejection_witness :
    (bulkMarkRead sessionA ["idA", "idB", "idC"] true c3Oracle).2 =
      .error (.thrown ("Failed to update some emails: " ++
        stringify (.obj [("idB", rejReason)]))) ∧
    strIncludes ("Failed to update some emails: " ++ stringify (.obj [("idB", rejReason)]))
      "idB" = true ∧
    strIncludes ("Failed to update some emails: " ++ stringify (.obj [("idB", rejReason)]))
      "idA" = false ∧
    strIncludes ("Failed to update some emails: " ++ stringify (.obj [("idB", rejReason)]))
      "idC" = false := by
  refine ⟨?_, by decide, by decide, by decide⟩
  have h := (c3_bulk_aggregate_rejection sessionA ["idA", "idB", "idC"] true "t"
    c3Oracle).1 (.obj [("notUpdated", .obj [("idB", rejReason)])]) [("idB", rejReason)]
    rfl rfl rfl
  simpa using h

/-! ### C4: container resolution -/

/-- A mailbox record as the remote lists it: `role` is `null` for
role-less mailboxes. -/
structure Mailbox where
  id : String
  name : String
  role : Option String
deriving DecidableEq, Inhabited

def encodeMailbox (mb : Mailbox) : JVal :=
  .obj [("id", .str mb.id), ("name", .str mb.name),
        ("role", match mb.role with | some r => .str r | none => .null)]

theorem jsGet_encodeMailbox_role (mb : Mailbox) :
    jsGet (encodeMailbox mb) "role" =
      .ok (match mb.role with | some r => .str r | none => .null) := rfl

theorem jsGet_encodeMailbox_name (mb : Mailbox) :
    jsGet (encodeMailbox mb) "name" = .ok (.str mb.name) := rfl

theorem jsGet_encodeMailbox_id (mb : Mailbox) :
    jsGet (encodeMailbox mb) "id" = .ok (.str mb.id) := rfl

theorem truthy_encodeMailbox (mb : Mailbox) : truthy (encodeMailbox mb) = true := rfl

theorem jsFindE_role_encoded (role : String) (mbs : List Mailbox) :
    jsFindE (fun mb => do
      let r ← jsGet mb "role"
      .ok (jsEqStr r role)) (mbs.map encodeMailbox) =
    .ok (match mbs.find? (fun mb => mb.role == some role) with
         | some mb => encodeMailbox mb
         | none => JVal.undefined) := by
  induction mbs with
  | nil => rfl
  | cons mb rest ih =>
    have hr : jsEqStr (match mb.role with | some r => .str r | none => .null) role =
        (mb.role == some role) := by
      rcases mb.role with _ | r <;> simp [jsEqStr]
    by_cases h : (mb.role == some role) = true
    · simp [jsFindE, jsGet_encodeMailbox_role, hr, h, List.find?_cons, Bind.bind,
        Except.bind]
    · simp only [Bool.not_eq_true] at h
      simp only [Bind.bind, Except.bind] at ih
      simp [jsFindE, jsGet_encodeMailbox_role, hr, h, List.find?_cons, Bind.bind,
        Except.bind, ih]

theorem jsFindE_name_encoded (word : String) (mbs : List Mailbox) :
    jsFindE (fun mb => do
      let n ← jsGet mb "name"
      match n with
      | .str nm => .ok (strIncludes (lowerStr nm) word)
      | _ => .error .typeError) (mbs.map encodeMailbox) =
    .ok (match mbs.find? (fun mb => strIncludes (lowerStr mb.name) word) with
         | some mb => encodeMailbox mb
         | none => JVal.undefined) := by
  induction mbs with
  | nil => rfl
  | cons mb rest ih =>
    by_cases h : strIncludes (lowerStr mb.name) word = true
    · simp [jsFindE, jsGet_encodeMailbox_name, h, List.find?_cons, Bind.bind, Except.bind]
    · simp only [Bool.not_eq_true] at h
      simp only [Bind.bind, Except.bind] at ih
      simp [jsFindE, jsGet_encodeMailbox_name, h, List.find?_cons, Bind.bind,
        Except.bind, ih]

/-- Container resolution over an encoded mailbox list: the first mailbox
whose role tag equals `role` exactly; otherwise the first whose lowercased
display name contains the search word `word`; otherwise `undefined`. -/
theorem findMailbox_encoded (role word : String) (mbs : List Mailbox) :
    findMailbox role word (.arr (mbs.map encodeMailbox)) =
    .ok (match mbs.find? (fun mb => mb.role == some role) with
         | some mb => encodeMailbox mb
         | none =>
           match mbs.find? (fun mb => strIncludes (lowerStr mb.name) word) with
           | some mb => encodeMailbox mb
           | none => JVal.undefined) := by
  have hrole := jsFindE_role_encoded role mbs
  have hname := jsFindE_name_encoded word mbs
  simp only [Bind.bind, Except.bind] at hrole hname
  simp only [findMailbox, jsArrElems, Bind.bind, Except.bind, hrole, hname]
  rcases h : mbs.find? (fun mb => mb.role == some role) with _ | mb
  · simp [h, truthy]
  · simp [h, encodeMailbox, truthy]

/-- The `Mailbox/get` reply body listing the given mailboxes. -/
def mailboxListBody (mbs : List Mailbox) : JmapResponse :=
  { methodResponses :=
      [("Mailbox/get", .obj [("list", .arr (mbs.map encodeMailbox))], "mailboxes")],
    sessionState := "state0" }

theorem stepArgs_mailboxListBody (mbs : List Mailbox) :
    stepArgs (mailboxListBody mbs) 0 =
      .ok (.obj [("list", .arr (mbs.map encodeMailbox))]) := rfl

theorem jsGet_listField (v : JVal) : jsGet (.obj [("list", v)]) "list" = .ok v := rfl

/-- The mailbox account of the counterexample run: no mailbox has role
`drafts` and no name contains the word `drafts` — only the singular
`Draft box`. -/
def c4Mailboxes : List Mailbox :=
  [⟨"mb1", "Draft box", none⟩, ⟨"mb2", "Sent", some "sent"⟩,
   ⟨"mb3", "Trash", some "trash"⟩]

/-- The default sending identity of the concrete runs. -/
def identityJ : JVal :=
  .obj [("id", .str "ident1"), ("email", .str "me@example.com"),
        ("mayDelete", .bool false)]

/-- An oracle under which `sendEmail` runs to completion: an identity
list, the `c4Mailboxes` containers, and a fully successful create-then-
submit batch whose created draft id is `D1` and submission id `S1`. -/
def sendOracleOk : Oracle := fun req =>
  match req.methodCalls with
  | ("Identity/get", _, _) :: _ =>
    { ok := true, statusText := "OK",
      body := { methodResponses :=
                  [("Identity/get", .obj [("list", .arr [identityJ])], "identities")],
                sessionState := "state0" } }
  | ("Mailbox/get", _, _) :: _ =>
    { ok := true, statusText := "OK", body := mailboxListBody c4Mailboxes }
  | _ =>
    { ok := true, statusText := "OK",
      body := { methodResponses :=
                  [("Email/set",
                    .obj [("created", .obj [("draft", .obj [("id", .str "D1")])])],
                    "createEmail"),
                   ("EmailSubmission/set",
                    .obj [("created", .obj [("submission", .obj [("id", .str "S1")])])],
                    "submitEmail")],
                sessionState := "state0" } }

/-- The email of the concrete `sendEmail` runs. -/
def emailX : EmailInput :=
  { toAddrs := ["r@example.com"], subject := "Hi", textBody := some "hello" }

/-- C4, counterexample.  In `c4Mailboxes` no mailbox carries the role tag
`drafts` and no display name contains the role word `drafts` (only the
singular `Draft box`), so by the claim the drafts resolution of
`sendEmail` should fail with the required-container error; instead the
code's fallback searches for the singular substring `draft`, resolves
`Draft box`, and the operation completes successfully. -/
theorem c4_counterexample :
    (∀ mb ∈ c4Mailboxes, ¬ mb.role = some "drafts") ∧
    (∀ mb ∈ c4Mailboxes, strIncludes (lowerStr mb.name) "drafts" = false) ∧
    (sendEmail sessionA emailX sendOracleOk).2 = .ok (.str "S1") := by
  refine ⟨by decide, by decide, rfl⟩

/-- C4, amended.  Container resolution selects the first mailbox whose
role tag matches exactly; otherwise it falls back to a case-insensitive
substring match on the display name — but the search word is the code's
keyword (`draft`, singular, for the drafts container; `sent`; `trash`),
not necessarily the role word; when neither matches, the operation throws
a plain `Error` (no `ConfigurationError` class exists) without posting any
mutation: `deleteEmail` and `bulkDelete` stop after the single container-
list request, and `sendEmail` posts nothing beyond identity and container
lookups. -/
theorem c4_container_resolution (role word : String) (mbs : List Mailbox) :
    (findMailbox role word (.arr (mbs.map encodeMailbox)) =
      .ok (match mbs.find? (fun mb => mb.role == some role) with
           | some mb => encodeMailbox mb
           | none =>
             match mbs.find? (fun mb => strIncludes (lowerStr mb.name) word) with
             | some mb => encodeMailbox mb
             | none => JVal.undefined)) ∧
    (∀ (s : JmapSession) (emailId : String) (o : Oracle),
      o (getMailboxesRequest s) = ⟨true, "OK", mailboxListBody mbs⟩ →
      mbs.find? (fun mb => mb.role == some "trash") = none →
      mbs.find? (fun mb => strIncludes (lowerStr mb.name) "trash") = none →
      deleteEmail s emailId o =
        ([getMailboxesRequest s], .error (.thrown "Could not find Trash mailbox"))) ∧
    (∀ (s : JmapSession) (emailIds : List String) (o : Oracle),
      o (getMailboxesRequest s) = ⟨true, "OK", mailboxListBody mbs⟩ →
      mbs.find? (fun mb => mb.role == some "trash") = none →
      mbs.find? (fun mb => strIncludes (lowerStr mb.name) "trash") = none →
      bulkDelete s emailIds o =
        ([getMailboxesRequest s], .error (.thrown "Could not find Trash mailbox"))) ∧
    (∀ (s : JmapSession) (email : EmailInput) (o : Oracle) (reqs : List JmapRequest)
       (identity : JVal) (f : String),
      getDefaultIdentity s o = (reqs, .ok identity) →
      truthy identity = true →
      strOpt email.fromAddr = some f →
      o (getMailboxesRequest s) = ⟨true, "OK", mailboxListBody mbs⟩ →
      mbs.find? (fun mb => mb.role == some "drafts") = none →
      mbs.find? (fun mb => strIncludes (lowerStr mb.name) "draft") = none →
      sendEmail s email o =
        (reqs ++ [getMailboxesRequest s],
         .error (.thrown "Could not find Drafts mailbox to save email"))) := by
  refine ⟨findMailbox_encoded role word mbs, ?_, ?_, ?_⟩
  · intro s emailId o ho h1 h2
    have hfm := findMailbox_encoded "trash" "trash" mbs
    rw [h1, h2] at hfm
    simp [deleteEmail, getMailboxes, Net.bind_apply, makeRequest, ho,
      stepArgs_mailboxListBody, jsGet_listField, hfm, truthy, Bind.bind, Except.bind]
  · intro s emailIds o ho h1 h2
    have hfm := findMailbox_encoded "trash" "trash" mbs
    rw [h1, h2] at hfm
    simp [bulkDelete, getMailboxes, Net.bind_apply, makeRequest, ho,
      stepArgs_mailboxListBody, jsGet_listField, hfm, truthy, Bind.bind, Except.bind]
  · intro s email o reqs identity f hid htru hf ho h1 h2
    have hfm := findMailbox_encoded "drafts" "draft" mbs
    rw [h1, h2] at hfm
    have hfm2 := findMailbox_encoded "sent" "sent" mbs
    simp only [sendEmail, Net.bind_eq, Net.bind_apply, hid, htru, if_true, hf,
      Net.pure_apply, Net.ofExcept_apply]
    simp [getMailboxes, Net.bind_apply, makeRequest, ho, stepArgs_mailboxListBody,
      jsGet_listField, hfm, hfm2, truthy, Bind.bind, Except.bind]

/-- The mailbox list of the spec's precedence test: a role-tagged drafts
container listed before a role-less `Drafts Folder`. -/
def mbsRoleTagged : List Mailbox :=
  [⟨"m1", "Misc", some "drafts"⟩, ⟨"m2", "Drafts Folder", none⟩]

/-- The mailbox list of the spec's fallback test: only a role-less
`My Drafts`. -/
def mbsNameOnly : List Mailbox := [⟨"m3", "My Drafts", none⟩]

/-- An oracle whose container list has no trash mailbox at all. -/
def noTrashOracle : Oracle := fun _ =>
  { ok := true, statusText := "OK", body := mailboxListBody mbsNameOnly }

/-- C4 witness: the amended resolution applied to the spec's test lists
(role tag wins over name, name substring works as fallback) and to a
concrete `deleteEmail` run that stops with the thrown error after only the
container-list request. -/
theorem c4_container_resolution_witness :
    findMailbox "drafts" "draft" (.arr (mbsRoleTagged.map encodeMailbox)) =
      .ok (encodeMailbox ⟨"m1", "Misc", some "drafts"⟩) ∧
    findMailbox "drafts" "draft" (.arr (mbsNameOnly.map encodeMailbox)) =
      .ok (encodeMailbox ⟨"m3", "My Drafts", none⟩) ∧
    deleteEmail sessionA "id9" noTrashOracle =
      ([getMailboxesRequest sessionA], .error (.thrown "Could not find Trash mailbox")) :=
  ⟨(c4_container_resolution "drafts" "draft" mbsRoleTagged).1,
   (c4_container_resolution "drafts" "draft" mbsNameOnly).1,
   (c4_container_resolution "drafts" "draft" mbsNameOnly).2.1 sessionA "id9"
     noTrashOracle rfl rfl rfl⟩

/-! ### C5: create-then-relate with a rejected submission -/

/-- Like `sendOracleOk`, but the batch reply reports the draft as created
(id `D1`) while the submission lands in the rejection set. -/
def sendOracleSubmitRejected : Oracle := fun req =>
  match req.methodCalls with
  | ("Identity/get", _, _) :: _ => sendOracleOk req
  | ("Mailbox/get", _, _) :: _ => sendOracleOk req
  | _ =>
    { ok := true, statusText := "OK",
      body := { methodResponses :=
                  [("Email/set",
                    .obj [("created", .obj [("draft", .obj [("id", .str "D1")])])],
                    "createEmail"),
                   ("EmailSubmission/set",
                    .obj [("notCreated", .obj [("submission", rejReason)])],
                    "submitEmail")],
                sessionState := "state0" } }

/-- C5, counterexample.  The create step succeeds with draft id `D1` and
the submission step is rejected; `sendEmail` does raise the error of the
secondary step, but the error is a plain message built only from the
submission rejection — the created draft's id `D1` appears nowhere in it,
so the caller cannot recover the created id from the error. -/
theorem c5_counterexample :
    (sendEmail sessionA emailX sendOracleSubmitRejected).2 =
      .error (.thrown ("Failed to submit email: " ++ stringify rejReason)) ∧
    strIncludes ("Failed to submit email: " ++ stringify rejReason) "forbidden" = true ∧
    strIncludes ("Failed to submit email: " ++ stringify rejReason) "D1" = false := by
  refine ⟨rfl, by decide, by decide⟩

/-- C5, amended.  `sendEmail` checks the two steps' rejection sets
independently, and when the create step passes while the submission step's
rejection set contains the synthesized submission, it throws an error
referencing only the secondary step: the message is the fixed text plus
the stringified submission rejection, a function of the submission reason
alone — the created draft's id is not attached as context. -/
theorem c5_submission_rejection (resp : JmapResponse) (a0 a1 nc0 snc sub : JVal)
    (h0 : stepArgs resp 0 = .ok a0)
    (hnc : jsGet a0 "notCreated" = .ok nc0)
    (hncf : truthy nc0 = false)
    (h1 : stepArgs resp 1 = .ok a1)
    (hsnc : jsGet a1 "notCreated" = .ok snc)
    (hst : truthy snc = true)
    (hsub : jsGet snc "submission" = .ok sub)
    (hsubt : truthy sub = true) :
    sendEmailResolve resp =
      .error (.thrown ("Failed to submit email: " ++ stringify sub)) := by
  simp [sendEmailResolve, h0, hnc, hncf, h1, hsnc, hst, hsub, hsubt, Bind.bind,
    Except.bind]

/-- C5 witness: the amended theorem at the concrete rejected-submission
response. -/
theorem c5_submission_rejection_witness :
    sendEmailResolve
        (sendOracleSubmitRejected
          (sendEmailRequest sessionA emailX (.str "ident1") (.str "me@example.com")
            "mb1" "mb2")).body =
      .error (.thrown ("Failed to submit email: " ++ stringify rejReason)) :=
  c5_submission_rejection _
    (.obj [("created", .obj [("draft", .obj [("id", .str "D1")])])])
    (.obj [("notCreated", .obj [("submission", rejReason)])])
    .undefined (.obj [("submission", rejReason)]) rejReason
    rfl rfl rfl rfl rfl rfl rfl rfl

/-! ### C7: first account id, used by every batch step -/

/-- C7.  The session selects the first account identifier of the bootstrap
body, however many accounts there are; and every method call of every
batch built by the domain operations carries exactly that session's
`accountId` in its arguments. -/
theorem c7_first_accountId (d : SessionData) (k : String) (v : JVal)
    (rest : List (String × JVal)) (hacc : d.accounts = (k, v) :: rest) :
    (mkSession d).accountId = k ∧
    (∀ s : JmapSession, ∀ call ∈ (getMailboxesRequest s).methodCalls,
      jsGet call.2.1 "accountId" = .ok (.str s.accountId)) ∧
    (∀ (s : JmapSession) (mb : Option String) (limit : Int),
      ∀ call ∈ (getEmailsRequest s mb limit).methodCalls,
      jsGet call.2.1 "accountId" = .ok (.str s.accountId)) ∧
    (∀ (s : JmapSession) (id : String),
      ∀ call ∈ (getEmailByIdRequest s id).methodCalls,
      jsGet call.2.1 "accountId" = .ok (.str s.accountId)) ∧
    (∀ s : JmapSession, ∀ call ∈ (getIdentitiesRequest s).methodCalls,
      jsGet call.2.1 "accountId" = .ok (.str s.accountId)) ∧
    (∀ (s : JmapSession) (email : EmailInput) (identityId fromEmail : JVal)
       (imb smb : String),
      ∀ call ∈ (sendEmailRequest s email identityId fromEmail imb smb).methodCalls,
      jsGet call.2.1 "accountId" = .ok (.str s.accountId)) ∧
    (∀ (s : JmapSession) (mbid : String) (limit : Int),
      ∀ call ∈ (getRecentEmailsRequest s mbid limit).methodCalls,
      jsGet call.2.1 "accountId" = .ok (.str s.accountId)) ∧
    (∀ (s : JmapSession) (emailId : String) (read : Bool),
      ∀ call ∈ (markEmailReadRequest s emailId read).methodCalls,
      jsGet call.2.1 "accountId" = .ok (.str s.accountId)) ∧
    (∀ (s : JmapSession) (emailId trashId : String),
      ∀ call ∈ (deleteEmailRequest s emailId trashId).methodCalls,
      jsGet call.2.1 "accountId" = .ok (.str s.accountId)) ∧
    (∀ (s : JmapSession) (emailId target : String),
      ∀ call ∈ (moveEmailRequest s emailId target).methodCalls,
      jsGet call.2.1 "accountId" = .ok (.str s.accountId)) ∧
    (∀ (s : JmapSession) (ids : List String) (read : Bool),
      ∀ call ∈ (bulkMarkReadRequest s ids read).methodCalls,
      jsGet call.2.1 "accountId" = .ok (.str s.accountId)) ∧
    (∀ (s : JmapSession) (ids : List String) (target : String),
      ∀ call ∈ (bulkMoveRequest s ids target).methodCalls,
      jsGet call.2.1 "accountId" = .ok (.str s.accountId)) ∧
    (∀ (s : JmapSession) (ids : List String) (trashId : String),
      ∀ call ∈ (bulkDeleteRequest s ids trashId).methodCalls,
      jsGet call.2.1 "accountId" = .ok (.str s.accountId)) ∧
    (∀ (s : JmapSession) (f : SearchFilters),
      ∀ call ∈ (advancedSearchRequest s f).methodCalls,
      jsGet call.2.1 "accountId" = .ok (.str s.accountId)) := by
  refine ⟨?_, ?_, ?_, ?_, ?_, ?_, ?_, ?_, ?_, ?_, ?_, ?_, ?_, ?_⟩
  · simp [mkSession, accountKeys, hacc]
  · intro s call hc
    fin_cases hc <;> rfl
  · intro s mb limit call hc
    fin_cases hc <;> rfl
  · intro s id call hc
    fin_cases hc <;> rfl
  · intro s call hc
    fin_cases hc <;> rfl
  · intro s email identityId fromEmail imb smb call hc
    fin_cases hc <;> rfl
  · intro s mbid limit call hc
    fin_cases hc <;> rfl
  · intro s emailId read call hc
    fin_cases hc <;> rfl
  · intro s emailId trashId call hc
    fin_cases hc <;> rfl
  · intro s emailId target call hc
    fin_cases hc <;> rfl
  · intro s ids read call hc
    fin_cases hc <;> rfl
  · intro s ids target call hc
    fin_cases hc <;> rfl
  · intro s ids trashId call hc
    fin_cases hc <;> rfl
  · intro s f call hc
    fin_cases hc <;> rfl

/-- C7 witness: with two accounts on the wire, the first key `acc1` is
selected, and the concrete `Mailbox/get` step carries it. -/
theorem c7_first_accountId_witness :
    (mkSession ⟨"u", [("acc1", .obj []), ("acc2", .obj [])], .obj []⟩).accountId =
      "acc1" ∧
    jsGet (("Mailbox/get", JVal.obj [("accountId", JVal.str "acc1")], "mailboxes") :
        String × JVal × String).2.1 "accountId" = .ok (.str "acc1") :=
  ⟨(c7_first_accountId ⟨"u", [("acc1", .obj []), ("acc2", .obj [])], .obj []⟩ "acc1"
      (.obj []) [("acc2", .obj [])] rfl).1,
   (c7_first_accountId ⟨"u", [("acc1", .obj []), ("acc2", .obj [])], .obj []⟩ "acc1"
      (.obj []) [("acc2", .obj [])] rfl).2.1
     { apiUrl := "https://api.fastmail.com/jmap/api/", accountId := "acc1",
       capabilities := .obj [] } _ (by simp [getMailboxesRequest])⟩

/-! ### C9: pure, deterministic batch building -/

/-- C9.  The batch builders are pure functions: building the same logical
operation twice from identical arguments yields structurally identical
ordered step lists (the equalities hold by reflexivity precisely because
the building is side-effect-free data assembly in this embedding, exactly
as in the source, whose builders only construct fresh object literals),
with fixed step order, method names and labels for the query-then-fetch
batch of `getEmails` and the create-then-submit batch of `sendEmail`. -/
theorem c9_builder_deterministic (s : JmapSession) (mb : Option String) (limit : Int)
    (email : EmailInput) (identityId fromEmail : JVal) (imb smb : String) :
    getEmailsRequest s mb limit = getEmailsRequest s mb limit ∧
    (getEmailsRequest s mb limit).methodCalls.map (fun c => c.2.2) =
      ["query", "emails"] ∧
    (getEmailsRequest s mb limit).methodCalls.map (fun c => c.1) =
      ["Email/query", "Email/get"] ∧
    sendEmailRequest s email identityId fromEmail imb smb =
      sendEmailRequest s email identityId fromEmail imb smb ∧
    (sendEmailRequest s email identityId fromEmail imb smb).methodCalls.map
      (fun c => c.2.2) = ["createEmail", "submitEmail"] ∧
    (sendEmailRequest s email identityId fromEmail imb smb).methodCalls.map
      (fun c => c.1) = ["Email/set", "EmailSubmission/set"] :=
  ⟨rfl, rfl, rfl, rfl, rfl, rfl⟩

/-! ### C10: limit clamping at the query step -/

/-- The argument object of a batch's first method call. -/
def firstCallArgs (r : JmapRequest) : JVal :=
  match r.methodCalls with
  | (_, args, _) :: _ => args
  | [] => .undefined

/-- C10.  `getRecentEmails` submits `Math.min(limit, 50)` as the query
limit, `advancedSearch` submits `Math.min(filters.limit || 50, 100)`
(where `|| 50` also replaces a provided limit of `0`, JavaScript's falsy
zero), and `getEmails` passes its limit argument through unclamped. -/
theorem c10_limit_clamping (s : JmapSession) (mbid : String) (mb : Option String)
    (limit : Int) (f : SearchFilters) :
    jsGet (firstCallArgs (getRecentEmailsRequest s mbid limit)) "limit" =
      .ok (.num (min limit 50)) ∧
    jsGet (firstCallArgs (advancedSearchRequest s f)) "limit" =
      .ok (.num (min (jsOrInt f.limit 50) 100)) ∧
    jsGet (firstCallArgs (getEmailsRequest s mb limit)) "limit" =
      .ok (.num limit) :=
  ⟨rfl, rfl, rfl⟩

/-! ### C8: round trips per operation -/

theorem makeRequest_fst (req : JmapRequest) (o : Oracle) :
    (makeRequest req o).1 = [req] := by
  unfold makeRequest
  split <;> rfl

theorem Net.length_bind_le (k1 k2 k : Nat) {m : Net α} {f : α → Net β} {o : Oracle}
    (h1 : (m o).1.length ≤ k1) (h2 : ∀ a, (f a o).1.length ≤ k2)
    (hk : k1 + k2 ≤ k) : ((m >>= f) o).1.length ≤ k := by
  simp only [Net.bind_eq, Net.bind]
  rcases h : (m o).2 with e | a
  · simp only [h, List.append_nil, List.length_append]
    omega
  · simp only [h, List.length_append]
    have := h2 a
    omega

theorem callsLe_getMailboxes (s : JmapSession) (o : Oracle) :
    (getMailboxes s o).1.length ≤ 1 := by
  have hmk : ∀ req : JmapRequest, ((makeRequest req) o).1.length ≤ 1 :=
    fun req => by simp [makeRequest_fst]
  have hof : ∀ {γ : Type} (e : Except JsError γ), ((Net.ofExcept e) o).1.length ≤ 0 :=
    fun e => by simp
  unfold getMailboxes
  exact Net.length_bind_le 1 0 1 (hmk _) (fun a => hof _) (by decide)

theorem callsLe_getIdentities (s : JmapSession) (o : Oracle) :
    (getIdentities s o).1.length ≤ 1 := by
  have hmk : ∀ req : JmapRequest, ((makeRequest req) o).1.length ≤ 1 :=
    fun req => by simp [makeRequest_fst]
  have hof : ∀ {γ : Type} (e : Except JsError γ), ((Net.ofExcept e) o).1.length ≤ 0 :=
    fun e => by simp
  unfold getIdentities
  exact Net.length_bind_le 1 0 1 (hmk _) (fun a => hof _) (by decide)

theorem callsLe_getDefaultIdentity (s : JmapSession) (o : Oracle) :
    (getDefaultIdentity s o).1.length ≤ 1 := by
  have hof : ∀ {γ : Type} (e : Except JsError γ), ((Net.ofExcept e) o).1.length ≤ 0 :=
    fun e => by simp
  unfold getDefaultIdentity
  exact Net.length_bind_le 1 0 1 (callsLe_getIdentities s o) (fun a => hof _) (by decide)

theorem callsLe_getEmails (s : JmapSession) (mb : Option String) (limit : Int)
    (o : Oracle) : (getEmails s mb limit o).1.length ≤ 1 := by
  have hmk : ∀ req : JmapRequest, ((makeRequest req) o).1.length ≤ 1 :=
    fun req => by simp [makeRequest_fst]
  have hof : ∀ {γ : Type} (e : Except JsError γ), ((Net.ofExcept e) o).1.length ≤ 0 :=
    fun e => by simp
  unfold getEmails
  exact Net.length_bind_le 1 0 1 (hmk _) (fun a => hof _) (by decide)

theorem callsLe_markEmailRead (s : JmapSession) (emailId : String) (read : Bool)
    (o : Oracle) : (markEmailRead s emailId read o).1.length ≤ 1 := by
  have hmk : ∀ req : JmapRequest, ((makeRequest req) o).1.length ≤ 1 :=
    fun req => by simp [makeRequest_fst]
  have hof : ∀ {γ : Type} (e : Except JsError γ), ((Net.ofExcept e) o).1.length ≤ 0 :=
    fun e => by simp
  unfold markEmailRead
  exact Net.length_bind_le 1 0 1 (hmk _) (fun a => hof _) (by decide)

theorem callsLe_moveEmail (s : JmapSession) (emailId target : String) (o : Oracle) :
    (moveEmail s emailId target o).1.length ≤ 1 := by
  have hmk : ∀ req : JmapRequest, ((makeRequest req) o).1.length ≤ 1 :=
    fun req => by simp [makeRequest_fst]
  have hof : ∀ {γ : Type} (e : Except JsError γ), ((Net.ofExcept e) o).1.length ≤ 0 :=
    fun e => by simp
  unfold moveEmail
  exact Net.length_bind_le 1 0 1 (hmk _) (fun a => hof _) (by decide)

theorem callsLe_bulkMarkRead (s : JmapSession) (ids : List String) (read : Bool)
    (o : Oracle) : (bulkMarkRead s ids read o).1.length ≤ 1 := by
  have hmk : ∀ req : JmapRequest, ((makeRequest req) o).1.length ≤ 1 :=
    fun req => by simp [makeRequest_fst]
  have hof : ∀ {γ : Type} (e : Except JsError γ), ((Net.ofExcept e) o).1.length ≤ 0 :=
    fun e => by simp
  unfold bulkMarkRead
  exact Net.length_bind_le 1 0 1 (hmk _) (fun a => hof _) (by decide)

theorem callsLe_bulkMove (s : JmapSession) (ids : List String) (target : String)
    (o : Oracle) : (bulkMove s ids target o).1.length ≤ 1 := by
  have hmk : ∀ req : JmapRequest, ((makeRequest req) o).1.length ≤ 1 :=
    fun req => by simp [makeRequest_fst]
  have hof : ∀ {γ : Type} (e : Except JsError γ), ((Net.ofExcept e) o).1.length ≤ 0 :=
    fun e => by simp
  unfold bulkMove
  exact Net.length_bind_le 1 0 1 (hmk _) (fun a => hof _) (by decide)

theorem callsLe_advancedSearch (s : JmapSession) (f : SearchFilters) (o : Oracle) :
    (advancedSearch s f o).1.length ≤ 1 := by
  have hmk : ∀ req : JmapRequest, ((makeRequest req) o).1.length ≤ 1 :=
    fun req => by simp [makeRequest_fst]
  have hof : ∀ {γ : Type} (e : Except JsError γ), ((Net.ofExcept e) o).1.length ≤ 0 :=
    fun e => by simp
  unfold advancedSearch
  exact Net.length_bind_le 1 0 1 (hmk _) (fun a => hof _) (by decide)

theorem callsLe_getEmailById (s : JmapSession) (id : String) (o : Oracle) :
    (getEmailById s id o).1.length ≤ 1 := by
  have hmk : ∀ req : JmapRequest, ((makeRequest req) o).1.length ≤ 1 :=
    fun req => by simp [makeRequest_fst]
  have hof : ∀ {γ : Type} (e : Except JsError γ), ((Net.ofExcept e) o).1.length ≤ 0 :=
    fun e => by simp
  unfold getEmailById
  exact Net.length_bind_le 1 0 1 (hmk _) (fun a => hof _) (by decide)

theorem callsLe_deleteEmail (s : JmapSession) (emailId : String) (o : Oracle) :
    (deleteEmail s emailId o).1.length ≤ 2 := by
  have hmk : ∀ req : JmapRequest, ((makeRequest req) o).1.length ≤ 1 :=
    fun req => by simp [makeRequest_fst]
  have hof : ∀ {γ : Type} (e : Except JsError γ), ((Net.ofExcept e) o).1.length ≤ 0 :=
    fun e => by simp
  unfold deleteEmail
  refine Net.length_bind_le 1 1 2 (callsLe_getMailboxes s o) (fun mailboxes => ?_)
    (by decide)
  refine Net.length_bind_le 0 1 1 (hof _) (fun trash => ?_) (by decide)
  by_cases h : truthy trash = true
  · rw [if_pos h]
    refine Net.length_bind_le 0 1 1 (hof _) (fun tid => ?_) (by decide)
    exact Net.length_bind_le 1 0 1 (hmk _) (fun resp => hof _) (by decide)
  · rw [if_neg h]
    simp

theorem callsLe_bulkDelete (s : JmapSession) (ids : List String) (o : Oracle) :
    (bulkDelete s ids o).1.length ≤ 2 := by
  have hmk : ∀ req : JmapRequest, ((makeRequest req) o).1.length ≤ 1 :=
    fun req => by simp [makeRequest_fst]
  have hof : ∀ {γ : Type} (e : Except JsError γ), ((Net.ofExcept e) o).1.length ≤ 0 :=
    fun e => by simp
  unfold bulkDelete
  refine Net.length_bind_le 1 1 2 (callsLe_getMailboxes s o) (fun mailboxes => ?_)
    (by decide)
  refine Net.length_bind_le 0 1 1 (hof _) (fun trash => ?_) (by decide)
  by_cases h : truthy trash = true
  · rw [if_pos h]
    refine Net.length_bind_le 0 1 1 (hof _) (fun tid => ?_) (by decide)
    exact Net.length_bind_le 1 0 1 (hmk _) (fun resp => hof _) (by decide)
  · rw [if_neg h]
    simp

theorem callsLe_getRecentEmails (s : JmapSession) (limit : Int) (name : String)
    (o : Oracle) : (getRecentEmails s limit name o).1.length ≤ 2 := by
  have hmk : ∀ req : JmapRequest, ((makeRequest req) o).1.length ≤ 1 :=
    fun req => by simp [makeRequest_fst]
  have hof : ∀ {γ : Type} (e : Except JsError γ), ((Net.ofExcept e) o).1.length ≤ 0 :=
    fun e => by simp
  unfold getRecentEmails
  refine Net.length_bind_le 1 1 2 (callsLe_getMailboxes s o) (fun mailboxes => ?_)
    (by decide)
  refine Net.length_bind_le 0 1 1 (hof _) (fun target => ?_) (by decide)
  by_cases h : truthy target = true
  · rw [if_pos h]
    refine Net.length_bind_le 0 1 1 (hof _) (fun tid => ?_) (by decide)
    exact Net.length_bind_le 1 0 1 (hmk _) (fun resp => hof _) (by decide)
  · rw [if_neg h]
    simp

theorem callsLe_sendEmail (s : JmapSession) (email : EmailInput) (o : Oracle) :
    (sendEmail s email o).1.length ≤ 3 := by
  have hmk : ∀ req : JmapRequest, ((makeRequest req) o).1.length ≤ 1 :=
    fun req => by simp [makeRequest_fst]
  have hof : ∀ {γ : Type} (e : Except JsError γ), ((Net.ofExcept e) o).1.length ≤ 0 :=
    fun e => by simp
  have hpu : ∀ {γ : Type} (x : γ), ((Net.pure x : Net γ) o).1.length ≤ 0 :=
    fun _ => Nat.le_refl 0
  unfold sendEmail
  refine Net.length_bind_le 1 2 3 (callsLe_getDefaultIdentity s o)
    (fun identity => ?_) (by decide)
  by_cases hi : truthy identity = true
  · rw [if_pos hi]
    rcases h : strOpt email.fromAddr with _ | f <;> simp only [h]
    · refine Net.length_bind_le 0 2 2 (hof _) (fun y => ?_) (by decide)
      refine Net.length_bind_le 1 1 2 (callsLe_getMailboxes s o) (fun mailboxes => ?_)
        (by decide)
      refine Net.length_bind_le 0 1 1 (hof _) (fun drafts => ?_) (by decide)
      refine Net.length_bind_le 0 1 1 (hof _) (fun sent => ?_) (by decide)
      by_cases hd : truthy drafts = true
      · rw [if_pos hd]
        by_cases hs : truthy sent = true
        · rw [if_pos hs]
          rcases h2 : strOpt email.mailboxId with _ | m <;> simp only [h2]
          · refine Net.length_bind_le 0 1 1 (hof _) (fun did => ?_) (by decide)
            refine Net.length_bind_le 0 1 1 (hpu _) (fun y2 => ?_) (by decide)
            by_cases hb : (strOpt email.textBody).isNone = true ∧
                (strOpt email.htmlBody).isNone = true
            · rw [if_pos hb]
              simp
            · rw [if_neg hb]
              refine Net.length_bind_le 0 1 1 (hof _) (fun identityId => ?_) (by decide)
              refine Net.length_bind_le 0 1 1 (hof _) (fun sentId => ?_) (by decide)
              exact Net.length_bind_le 1 0 1 (hmk _) (fun resp => hof _) (by decide)
          · refine Net.length_bind_le 0 1 1 (hpu _) (fun y2 => ?_) (by decide)
            by_cases hb : (strOpt email.textBody).isNone = true ∧
                (strOpt email.htmlBody).isNone = true
            · rw [if_pos hb]
              simp
            · rw [if_neg hb]
              refine Net.length_bind_le 0 1 1 (hof _) (fun identityId => ?_) (by decide)
              refine Net.length_bind_le 0 1 1 (hof _) (fun sentId => ?_) (by decide)
              exact Net.length_bind_le 1 0 1 (hmk _) (fun resp => hof _) (by decide)
        · rw [if_neg hs]
          simp
      · rw [if_neg hd]
        simp
    · refine Net.length_bind_le 0 2 2 (hpu _) (fun y => ?_) (by decide)
      refine Net.length_bind_le 1 1 2 (callsLe_getMailboxes s o) (fun mailboxes => ?_)
        (by decide)
      refine Net.length_bind_le 0 1 1 (hof _) (fun drafts => ?_) (by decide)
      refine Net.length_bind_le 0 1 1 (hof _) (fun sent => ?_) (by decide)
      by_cases hd : truthy drafts = true
      · rw [if_pos hd]
        by_cases hs : truthy sent = true
        · rw [if_pos hs]
          rcases h2 : strOpt email.mailboxId with _ | m <;> simp only [h2]
          · refine Net.length_bind_le 0 1 1 (hof _) (fun did => ?_) (by decide)
            refine Net.length_bind_le 0 1 1 (hpu _) (fun y2 => ?_) (by decide)
            by_cases hb : (strOpt email.textBody).isNone = true ∧
                (strOpt email.htmlBody).isNone = true
            · rw [if_pos hb]
              simp
            · rw [if_neg hb]
              refine Net.length_bind_le 0 1 1 (hof _) (fun identityId => ?_) (by decide)
              refine Net.length_bind_le 0 1 1 (hof _) (fun sentId => ?_) (by decide)
              exact Net.length_bind_le 1 0 1 (hmk _) (fun resp => hof _) (by decide)
          · refine Net.length_bind_le 0 1 1 (hpu _) (fun y2 => ?_) (by decide)
            by_cases hb : (strOpt email.textBody).isNone = true ∧
                (strOpt email.htmlBody).isNone = true
            · rw [if_pos hb]
              simp
            · rw [if_neg hb]
              refine Net.length_bind_le 0 1 1 (hof _) (fun identityId => ?_) (by decide)
              refine Net.length_bind_le 0 1 1 (hof _) (fun sentId => ?_) (by decide)
              exact Net.length_bind_le 1 0 1 (hmk _) (fun resp => hof _) (by decide)
        · rw [if_neg hs]
          simp
      · rw [if_neg hd]
        simp
  · rw [if_neg hi]
    simp

/-- C8, counterexample.  A fully successful `sendEmail` run posts three
JMAP requests beyond the memoised session bootstrap — the identity fetch,
the container list, and the create-then-submit batch — not at most two as
claimed. -/
theorem c8_counterexample :
    (sendEmail sessionA emailX sendOracleOk).1.length = 3 ∧
    (sendEmail sessionA emailX sendOracleOk).2 = .ok (.str "S1") ∧
    ¬ ((sendEmail sessionA emailX sendOracleOk).1.length ≤ 2) := by
  refine ⟨rfl, rfl, by decide⟩

/-- C8, amended.  Each domain operation issues at most one batch request
beyond the memoised session bootstrap, or two when it must first resolve a
container (`deleteEmail`, `bulkDelete`, `getRecentEmails`) — except
`sendEmail`, which issues up to three (identity fetch, container list,
batch).  The requests of one operation are issued sequentially (the trace
is an ordered list).  On the successful path, `deleteEmail` issues exactly
the container list followed by the mutate batch, and `sendEmail` exactly
the identity fetch, the container list, and the create-then-submit
batch, in that order. -/
theorem c8_round_trip_budget :
    (∀ (s : JmapSession) (mb : Option String) (limit : Int) (o : Oracle),
      (getEmails s mb limit o).1.length ≤ 1) ∧
    (∀ (s : JmapSession) (emailId : String) (read : Bool) (o : Oracle),
      (markEmailRead s emailId read o).1.length ≤ 1) ∧
    (∀ (s : JmapSession) (emailId target : String) (o : Oracle),
      (moveEmail s emailId target o).1.length ≤ 1) ∧
    (∀ (s : JmapSession) (ids : List String) (read : Bool) (o : Oracle),
      (bulkMarkRead s ids read o).1.length ≤ 1) ∧
    (∀ (s : JmapSession) (ids : List String) (target : String) (o : Oracle),
      (bulkMove s ids target o).1.length ≤ 1) ∧
    (∀ (s : JmapSession) (f : SearchFilters) (o : Oracle),
      (advancedSearch s f o).1.length ≤ 1) ∧
    (∀ (s : JmapSession) (id : String) (o : Oracle),
      (getEmailById s id o).1.length ≤ 1) ∧
    (∀ (s : JmapSession) (emailId : String) (o : Oracle),
      (deleteEmail s emailId o).1.length ≤ 2) ∧
    (∀ (s : JmapSession) (ids : List String) (o : Oracle),
      (bulkDelete s ids o).1.length ≤ 2) ∧
    (∀ (s : JmapSession) (limit : Int) (name : String) (o : Oracle),
      (getRecentEmails s limit name o).1.length ≤ 2) ∧
    (∀ (s : JmapSession) (email : EmailInput) (o : Oracle),
      (sendEmail s email o).1.length ≤ 3) ∧
    (∀ (s : JmapSession) (emailId : String) (o : Oracle) (mbs : List Mailbox)
       (tmb : Mailbox),
      o (getMailboxesRequest s) = ⟨true, "OK", mailboxListBody mbs⟩ →
      mbs.find? (fun mb => mb.role == some "trash") = some tmb →
      (deleteEmail s emailId o).1 =
        [getMailboxesRequest s, deleteEmailRequest s emailId tmb.id]) ∧
    (∀ (s : JmapSession) (email : EmailInput) (o : Oracle) (reqs : List JmapRequest)
       (identity idid : JVal) (f : String) (mbs : List Mailbox) (dmb smb : Mailbox),
      getDefaultIdentity s o = (reqs, .ok identity) →
      truthy identity = true →
      strOpt email.fromAddr = some f →
      o (getMailboxesRequest s) = ⟨true, "OK", mailboxListBody mbs⟩ →
      mbs.find? (fun mb => mb.role == some "drafts") = some dmb →
      mbs.find? (fun mb => mb.role == some "sent") = some smb →
      strOpt email.mailboxId = none →
      (strOpt email.textBody).isNone = false →
      jsGet identity "id" = .ok idid →
      (sendEmail s email o).1 =
        reqs ++ [getMailboxesRequest s,
                 sendEmailRequest s email idid (.str f) dmb.id smb.id]) := by
  refine ⟨callsLe_getEmails, callsLe_markEmailRead, callsLe_moveEmail,
    callsLe_bulkMarkRead, callsLe_bulkMove, callsLe_advancedSearch,
    callsLe_getEmailById, callsLe_deleteEmail, callsLe_bulkDelete,
    callsLe_getRecentEmails, callsLe_sendEmail, ?_, ?_⟩
  · intro s emailId o mbs tmb ho hfind
    have hfm := findMailbox_encoded "trash" "trash" mbs
    rw [hfind] at hfm
    simp [deleteEmail, getMailboxes, Net.bind_apply, makeRequest, ho,
      stepArgs_mailboxListBody, jsGet_listField, hfm, truthy_encodeMailbox,
      jsGet_encodeMailbox_id, jsToPropKey, makeRequest_fst, Bind.bind, Except.bind]
    split <;> simp
  · intro s email o reqs identity idid f mbs dmb smb hid htru hf ho hdr hsn hmbid
      htb hido
    have hfmd := findMailbox_encoded "drafts" "draft" mbs
    rw [hdr] at hfmd
    have hfms := findMailbox_encoded "sent" "sent" mbs
    rw [hsn] at hfms
    simp only [sendEmail, Net.bind_eq, Net.bind_apply, hid, htru, if_true, hf,
      Net.pure_apply, Net.ofExcept_apply]
    simp [getMailboxes, Net.bind_apply, makeRequest, ho, stepArgs_mailboxListBody,
      jsGet_listField, hfmd, hfms, truthy_encodeMailbox, hmbid, htb, hido,
      jsGet_encodeMailbox_id, jsToPropKey, makeRequest_fst, Bind.bind, Except.bind]
    split <;> simp

/-- The mailbox account of the exact-trace witness: all three well-known
roles present and role-tagged. -/
def mbsFull : List Mailbox :=
  [⟨"m1", "Drafts", some "drafts"⟩, ⟨"m2", "Sent", some "sent"⟩,
   ⟨"m3", "Trash", some "trash"⟩]

/-- Like `sendOracleOk` but over the fully role-tagged `mbsFull`. -/
def fullOracle : Oracle := fun req =>
  match req.methodCalls with
  | ("Mailbox/get", _, _) :: _ =>
    { ok := true, statusText := "OK", body := mailboxListBody mbsFull }
  | _ => sendOracleOk req

/-- The email of the exact-trace witness (an explicit from address). -/
def emailY : EmailInput :=
  { toAddrs := ["r@example.com"], subject := "Hi", textBody := some "hello",
    fromAddr := some "me@example.com" }

/-- C8 witness: the exact traces of the amended theorem at concrete
successful runs: `deleteEmail` posts the container list then the mutate
batch; `sendEmail` posts identity fetch, container list, then the
create-then-submit batch. -/
theorem c8_round_trip_budget_witness :
    (deleteEmail sessionA "id9" fullOracle).1 =
      [getMailboxesRequest sessionA, deleteEmailRequest sessionA "id9" "m3"] ∧
    (sendEmail sessionA emailY fullOracle).1 =
      [getIdentitiesRequest sessionA] ++
        [getMailboxesRequest sessionA,
         sendEmailRequest sessionA emailY (.str "ident1") (.str "me@example.com")
           "m1" "m2"] :=
  ⟨c8_round_trip_budget.2.2.2.2.2.2.2.2.2.2.2.1 sessionA "id9" fullOracle mbsFull
      ⟨"m3", "Trash", some "trash"⟩ rfl rfl,
   c8_round_trip_budget.2.2.2.2.2.2.2.2.2.2.2.2 sessionA emailY fullOracle
      [getIdentitiesRequest sessionA] identityJ (.str "ident1") "me@example.com"
      mbsFull ⟨"m1", "Drafts", some "drafts"⟩ ⟨"m2", "Sent", some "sent"⟩
      rfl rfl rfl rfl rfl rfl rfl rfl rfl⟩

end FastmailMcp
